import Mathlib

/-!
Shallow embedding of krun.c, a thermal governor: it launches a child
process, samples temperatures, and suspends/resumes the child to keep the
temperature inside a hysteresis band.  The OS calls (signals, waitid) and
the libsensors reads are external collaborators: the per-iteration sensor
sample, the delivery of SIGINT, and the outcome of the non-blocking
`waitid` call are inputs to each loop iteration, and the signal/notice
side effects are recorded as an event list.  `waitid` is modelled with
its POSIX semantics: it returns 0 both when the child is still running
and on the call that reaps the exited child (filling `si.si_status`), and
returns nonzero only on error (ECHILD once the child was already reaped);
the loop of krun.c breaks only on the nonzero return.  C doubles are
modelled as rationals (only order comparisons occur in the program).
-/

namespace Krun

/-- Observable effects of one iteration of the control loop: the four
numbered status notices printed to stdout, the three signalling
operations on the child (STOP to the group, CONT to the group, KILL to
the pid), and the non-blocking `waitid` reap call. -/
inductive Event where
  | notice171
  | notice172
  | notice173
  | notice174
  | sigSuspend
  | sigResume
  | sigKill
  | reapCall
  deriving DecidableEq, Repr

/-- The mutable state of `main`: the `hot` flag, the two volatile
interrupt flags `killed` and `hot_killed`, the recorded `si.si_status`,
and whether the loop has been left via `break`. -/
structure GovState where
  hot : Bool
  killed : Bool
  hotKilled : Bool
  siStatus : Int
  exited : Bool
  deriving DecidableEq, Repr

/-- Outcome of one `waitid(P_PID, child, &si, WEXITED | WNOHANG)` call,
per its POSIX semantics.  `stillRunning`: the call returns 0 with no
state change reported and `si.si_status` untouched.  `reaped st`: the
child has exited; this call reaps it, returns 0 and fills
`si.si_status` with `st`.  `err`: the call returns nonzero (ECHILD: the
child was already reaped by an earlier call) and leaves `si`
untouched. -/
inductive ReapResult where
  | stillRunning
  | reaped (st : Int)
  | err
  deriving DecidableEq, Repr

/-- Environment-supplied inputs consumed by one loop iteration: whether a
SIGINT was delivered before this iteration, the sampled temperature
`t = detect_temp()`, and the outcome of the `waitid` call should the
iteration make one. -/
structure IterInput where
  interrupt : Bool
  t : ℚ
  reap : ReapResult
  deriving DecidableEq, Repr

/-- The SIGINT handler `handle_INT` unconditionally sets both `killed`
and `hot_killed`.  `deliver b s` applies it when a signal was
delivered. -/
def deliver (b : Bool) (s : GovState) : GovState :=
  if b then { s with killed := true, hotKilled := true } else s

/-- The `if (hot)` branch of the loop body: `hot_killed` check emitting
the 173 notice and clearing only `hot_killed`, then the
`t < cool_threshold` check transitioning to cool, emitting 172 and
sending SIGCONT to the process group (`resume`). -/
def hotBranch (coolT : ℚ) (s : GovState) (t : ℚ) : GovState × List Event :=
  let p :=
    if s.hotKilled then ({ s with hotKilled := false }, [Event.notice173])
    else (s, ([] : List Event))
  if t < coolT then
    ({ p.1 with hot := false }, p.2 ++ [Event.notice172, Event.sigResume])
  else p

/-- The `else` (cool) branch of the loop body: `killed` check emitting
174 and sending SIGKILL (`kill_child`); then the `waitid` call, whose
outcome `q` carries the `si` state after the call and whether the return
value `waited` was nonzero; then `if (waited != 0) break` — so the loop
is left only when `waitid` fails, not on the call that reaps the exit
and records the status; then the `t > hot_threshold` check transitioning
to hot, emitting 171 and sending SIGSTOP to the group (`suspend`). -/
def coolBranch (hotT : ℚ) (s : GovState) (t : ℚ) (reap : ReapResult) :
    GovState × List Event :=
  let p :=
    if s.killed then ({ s with killed := false }, [Event.notice174, Event.sigKill])
    else (s, ([] : List Event))
  let q :=
    match reap with
    | ReapResult.stillRunning => (p.1, false)
    | ReapResult.reaped st => ({ p.1 with siStatus := st }, false)
    | ReapResult.err => (p.1, true)
  if q.2 then ({ q.1 with exited := true }, p.2 ++ [Event.reapCall])
  else if t > hotT then
    ({ q.1 with hot := true },
      p.2 ++ [Event.reapCall, Event.notice171, Event.sigSuspend])
  else (q.1, p.2 ++ [Event.reapCall])

/-- One iteration of the `while (1)` loop of `main`: deliver any pending
SIGINT, sample `t`, then run the hot or cool branch on the current
state. -/
def step (hotT coolT : ℚ) (s0 : GovState) (inp : IterInput) : GovState × List Event :=
  let s := deliver inp.interrupt s0
  if s.hot then hotBranch coolT s inp.t
  else coolBranch hotT s inp.t inp.reap

/-- Iterating the loop over a list of per-iteration inputs; once the loop
has been left (`exited`), no further iteration runs. -/
def run (hotT coolT : ℚ) : GovState → List IterInput → GovState × List Event
  | s, [] => (s, [])
  | s, i :: rest =>
    if s.exited then (s, [])
    else
      let p := step hotT coolT s i
      let q := run hotT coolT p.1 rest
      (q.1, p.2 ++ q.2)

/-- The state of `main` on entering the loop: `hot = 0`, `killed = 0`,
`hot_killed = 0`, `si.si_status = 0`. -/
def initState : GovState :=
  { hot := false, killed := false, hotKilled := false, siStatus := 0, exited := false }

/-- POSIX process exit status: the value passed to `exit` (or returned
from `main`) truncated to its low 8 bits. -/
def exitStatusOf (code : Int) : Nat := (code % 256).toNat

/-- Every startup fatal error in krun.c calls `exit(-1)`, observed by the
parent as status 255. -/
def startupExitStatus : Nat := exitStatusOf (-1)

/-- Exit status of the governor itself: `main` returns `si.si_status`. -/
def governorExitStatus (s : GovState) : Nat := exitStatusOf s.siStatus

/-- The distinct fatal startup rejections in the prologue of `main`, in
source order. -/
inductive StartupError where
  | usage
  | hotTooHigh
  | coolTooLow
  | inverted
  deriving DecidableEq, Repr

/-- Command-line validation in `main`: `argc < 4` prints usage and exits;
`hot_threshold > 90.0`, `cool_threshold < 30.0` and
`hot_threshold < cool_threshold` are each fatal.  `none` means the
configuration is accepted and monitoring starts. -/
def checkConfig (argc : Nat) (hotT coolT : ℚ) : Option StartupError :=
  if argc < 4 then some StartupError.usage
  else if hotT > 90 then some StartupError.hotTooHigh
  else if coolT < 30 then some StartupError.coolTooLow
  else if hotT < coolT then some StartupError.inverted
  else none

/-- `detect_temp`: folds over the successful readings of the temperature
handles with accumulator starting at `-1.0`, replacing it whenever a
reading is strictly larger. -/
def detect_temp (readings : List ℚ) : ℚ :=
  readings.foldl (fun m v => if v > m then v else m) (-1)

@[simp] lemma deliver_hot (b : Bool) (s : GovState) : (deliver b s).hot = s.hot := by
  cases b <;> simp [deliver]

@[simp] lemma deliver_exited (b : Bool) (s : GovState) :
    (deliver b s).exited = s.exited := by
  cases b <;> simp [deliver]

@[simp] lemma deliver_siStatus (b : Bool) (s : GovState) :
    (deliver b s).siStatus = s.siStatus := by
  cases b <;> simp [deliver]

lemma deliver_killed (b : Bool) (s : GovState) :
    (deliver b s).killed = (b || s.killed) := by
  cases b <;> simp [deliver]

lemma deliver_hotKilled (b : Bool) (s : GovState) :
    (deliver b s).hotKilled = (b || s.hotKilled) := by
  cases b <;> simp [deliver]

/-- Claim C1 (code bug): on the iteration whose `waitid` call reports
the child exited — here the cool state with sample 76 against thresholds
75/60 and reap outcome `reaped 7` — the code records status 7 but does
not leave the loop, because `waitid` returned 0 and krun.c breaks only
on a nonzero return; the same iteration even transitions to hot and
SIGSTOPs the process group of the dead child.  The loop is left only by
a later iteration whose `waitid` call fails (ECHILD), which leaves
`si.si_status` untouched. -/
theorem reap_report_does_not_exit :
    (step 75 60 initState ⟨false, 76, ReapResult.reaped 7⟩).1.exited = false ∧
    (step 75 60 initState ⟨false, 76, ReapResult.reaped 7⟩).1.siStatus = 7 ∧
    (step 75 60 initState ⟨false, 76, ReapResult.reaped 7⟩).1.hot = true ∧
    Event.sigSuspend ∈ (step 75 60 initState ⟨false, 76, ReapResult.reaped 7⟩).2 ∧
    (step 75 60 initState ⟨false, 50, ReapResult.err⟩).1.exited = true ∧
    (step 75 60 initState ⟨false, 50, ReapResult.err⟩).1.siStatus = 0 := by
  decide

/-- Claim C2 (amended): when the monitored child exits, the governor
process exit status equals the reported child status (reported statuses
lie in 0..255); every startup fatal error exits with the fixed non-zero
status 255 — which, as the counterexample shows, is not distinct from
every child-forwarded status. -/
theorem exit_status_forwarding (hotT coolT : ℚ) (s : GovState) (inp : IterInput)
    (st : Int) (hcool : s.hot = false) (hreap : inp.reap = ReapResult.reaped st)
    (h0 : 0 ≤ st) (h256 : st < 256) :
    governorExitStatus (step hotT coolT s inp).1 = st.toNat ∧
    startupExitStatus ≠ 0 := by
  have hsi : (step hotT coolT s inp).1.siStatus = st := by
    by_cases hk : (deliver inp.interrupt s).killed <;>
      by_cases hht : inp.t > hotT <;>
        simp [step, coolBranch, hcool, hreap, hk, hht]
  refine ⟨?_, by decide⟩
  rw [governorExitStatus, hsi, exitStatusOf, Int.emod_eq_of_lt h0 h256]

/-- Witness for the amended claim C2 at a concrete child status 7. -/
theorem exit_status_forwarding_witness :
    governorExitStatus (step 75 60 initState ⟨false, 50, ReapResult.reaped 7⟩).1 = (7 : Int).toNat ∧
    startupExitStatus ≠ 0 :=
  exit_status_forwarding 75 60 initState ⟨false, 50, ReapResult.reaped 7⟩ 7 rfl rfl
    (by decide) (by decide)

/-- Claim C2 counterexample: a child that exits with status 255 is
forwarded as 255, exactly the startup fatal-error status `exit(-1)`
produces, so the startup status is not distinct from child-forwarded
statuses. -/
theorem exit_status_not_distinct :
    governorExitStatus (step 75 60 initState ⟨false, 50, ReapResult.reaped 255⟩).1
      = startupExitStatus ∧ startupExitStatus ≠ 0 := by
  decide

/-- Claim C3: a sampled temperature above the hot threshold while cool,
with the reap reporting the child still running (so the child was not
reaped that iteration), transitions to hot, emits the 171 notice and
exactly one suspend; and no iteration that starts hot ever issues a
suspend, so the suspend is not repeated while the state remains hot. -/
theorem cool_to_hot_suspends_once (hotT coolT : ℚ) (s : GovState) (inp : IterInput)
    (hcool : s.hot = false) (hreap : inp.reap = ReapResult.stillRunning)
    (ht : inp.t > hotT) :
    ((step hotT coolT s inp).1.hot = true ∧
      Event.notice171 ∈ (step hotT coolT s inp).2 ∧
      (step hotT coolT s inp).2.count Event.sigSuspend = 1) ∧
    (∀ (s2 : GovState) (inp2 : IterInput), s2.hot = true →
      (step hotT coolT s2 inp2).2.count Event.sigSuspend = 0) := by
  constructor
  · by_cases hk : (deliver inp.interrupt s).killed <;>
      simp [step, coolBranch, hcool, hreap, ht, hk, List.count_cons, List.count_append]
  · intro s2 inp2 hh2
    by_cases hhk : (deliver inp2.interrupt s2).hotKilled <;>
      by_cases hc : inp2.t < coolT <;>
        simp [step, hotBranch, hh2, hhk, hc, List.count_cons, List.count_append]

/-- Witness for claim C3 at temperature 80 against thresholds 75/60. -/
theorem cool_to_hot_suspends_once_witness :
    (step 75 60 initState ⟨false, 80, ReapResult.stillRunning⟩).1.hot = true ∧
    Event.notice171 ∈ (step 75 60 initState ⟨false, 80, ReapResult.stillRunning⟩).2 ∧
    (step 75 60 initState ⟨false, 80, ReapResult.stillRunning⟩).2.count Event.sigSuspend = 1 :=
  (cool_to_hot_suspends_once 75 60 initState ⟨false, 80, ReapResult.stillRunning⟩ rfl rfl (by decide)).1

/-- Claim C4: a sampled temperature below the cool threshold while hot
transitions to cool, emits the 172 notice and exactly one resume. -/
theorem hot_to_cool_resumes_once (hotT coolT : ℚ) (s : GovState) (inp : IterInput)
    (hhot : s.hot = true) (ht : inp.t < coolT) :
    (step hotT coolT s inp).1.hot = false ∧
    Event.notice172 ∈ (step hotT coolT s inp).2 ∧
    (step hotT coolT s inp).2.count Event.sigResume = 1 := by
  by_cases hhk : (deliver inp.interrupt s).hotKilled <;>
    simp [step, hotBranch, hhot, ht, hhk, List.count_cons, List.count_append]

/-- Witness for claim C4 at temperature 58 against thresholds 75/60. -/
theorem hot_to_cool_resumes_once_witness :
    (step 75 60 ⟨true, false, false, 0, false⟩ ⟨false, 58, ReapResult.stillRunning⟩).1.hot = false ∧
    Event.notice172 ∈ (step 75 60 ⟨true, false, false, 0, false⟩ ⟨false, 58, ReapResult.stillRunning⟩).2 ∧
    (step 75 60 ⟨true, false, false, 0, false⟩ ⟨false, 58, ReapResult.stillRunning⟩).2.count Event.sigResume = 1 :=
  hot_to_cool_resumes_once 75 60 ⟨true, false, false, 0, false⟩ ⟨false, 58, ReapResult.stillRunning⟩
    rfl (by decide)

/-- Claim C5: an iteration that starts hot never issues a kill; when the
interrupt is delivered to a hot iteration it emits the 173 notice, clears
only `hotKilled` while `killed` stays set, and stays hot while the
temperature has not dropped below the cool threshold; once a sample drops
below it the child is resumed and the state goes cool with `killed` still
set, and the following (first cool) iteration issues exactly one kill
with the 174 notice. -/
theorem interrupt_while_hot_defers_kill (hotT coolT : ℚ) (s s1 s2 : GovState)
    (i1 i2 i3 : IterInput)
    (hhot : s.hot = true) (hint : i1.interrupt = true) (h1 : ¬ i1.t < coolT)
    (hs1 : s1 = (step hotT coolT s i1).1)
    (h2i : i2.interrupt = false) (h2 : i2.t < coolT)
    (hs2 : s2 = (step hotT coolT s1 i2).1)
    (h3i : i3.interrupt = false) :
    (∀ (s0 : GovState) (j : IterInput), s0.hot = true →
        Event.sigKill ∉ (step hotT coolT s0 j).2) ∧
    Event.notice173 ∈ (step hotT coolT s i1).2 ∧
    s1.hotKilled = false ∧ s1.killed = true ∧ s1.hot = true ∧
    Event.sigResume ∈ (step hotT coolT s1 i2).2 ∧
    s2.hot = false ∧ s2.killed = true ∧
    Event.sigKill ∈ (step hotT coolT s2 i3).2 ∧
    (step hotT coolT s2 i3).2.count Event.sigKill = 1 ∧
    Event.notice174 ∈ (step hotT coolT s2 i3).2 := by
  have hnokill : ∀ (s0 : GovState) (j : IterInput), s0.hot = true →
      Event.sigKill ∉ (step hotT coolT s0 j).2 := by
    intro s0 j hh0
    by_cases hhk : (deliver j.interrupt s0).hotKilled <;>
      by_cases hc : j.t < coolT <;>
        simp [step, hotBranch, hh0, hhk, hc]
  have hd1 : deliver i1.interrupt s = { s with killed := true, hotKilled := true } := by
    rw [hint]; rfl
  have hstep1 : step hotT coolT s i1
      = ({ s with killed := true, hotKilled := false }, [Event.notice173]) := by
    simp [step, hd1, hhot, hotBranch, h1]
  have hs1v : s1 = { s with killed := true, hotKilled := false } := by
    rw [hs1, hstep1]
  have hstep2 : step hotT coolT s1 i2
      = ({ s with killed := true, hotKilled := false, hot := false },
         [Event.notice172, Event.sigResume]) := by
    simp [step, deliver, h2i, hs1v, hotBranch, hhot, h2]
  have hs2v : s2 = { s with killed := true, hotKilled := false, hot := false } := by
    rw [hs2, hstep2]
  have h3 : Event.sigKill ∈ (step hotT coolT s2 i3).2 ∧
      (step hotT coolT s2 i3).2.count Event.sigKill = 1 ∧
      Event.notice174 ∈ (step hotT coolT s2 i3).2 := by
    rcases hr : i3.reap with _ | st | _ <;> by_cases hht : i3.t > hotT <;>
      simp [step, deliver, h3i, hs2v, coolBranch, hr, hht,
        List.count_cons, List.count_append]
  exact ⟨hnokill, by simp [hstep1], by simp [hs1v], by simp [hs1v],
    by simp [hs1v, hhot], by simp [hstep2], by simp [hs2v], by simp [hs2v],
    h3.1, h3.2.1, h3.2.2⟩

/-- Witness for claim C5: thresholds 75/60, interrupt delivered at a hot
sample of 76, then samples of 58. -/
theorem interrupt_while_hot_defers_kill_witness :
    Event.notice173 ∈ (step 75 60 ⟨true, false, false, 0, false⟩ ⟨true, 76, ReapResult.stillRunning⟩).2 ∧
    (⟨true, true, false, 0, false⟩ : GovState).hotKilled = false ∧
    (⟨true, true, false, 0, false⟩ : GovState).killed = true ∧
    (⟨true, true, false, 0, false⟩ : GovState).hot = true ∧
    Event.sigResume ∈ (step 75 60 ⟨true, true, false, 0, false⟩ ⟨false, 58, ReapResult.stillRunning⟩).2 ∧
    (⟨false, true, false, 0, false⟩ : GovState).hot = false ∧
    (⟨false, true, false, 0, false⟩ : GovState).killed = true ∧
    Event.sigKill ∈ (step 75 60 ⟨false, true, false, 0, false⟩ ⟨false, 58, ReapResult.stillRunning⟩).2 ∧
    (step 75 60 ⟨false, true, false, 0, false⟩ ⟨false, 58, ReapResult.stillRunning⟩).2.count Event.sigKill = 1 ∧
    Event.notice174 ∈ (step 75 60 ⟨false, true, false, 0, false⟩ ⟨false, 58, ReapResult.stillRunning⟩).2 :=
  (interrupt_while_hot_defers_kill 75 60 ⟨true, false, false, 0, false⟩
    ⟨true, true, false, 0, false⟩ ⟨false, true, false, 0, false⟩
    ⟨true, 76, ReapResult.stillRunning⟩ ⟨false, 58, ReapResult.stillRunning⟩ ⟨false, 58, ReapResult.stillRunning⟩
    rfl rfl (by decide) (by decide) rfl (by decide) (by decide) rfl).2

/-- Claim C6: for sampled temperatures inside the hysteresis band the
state enum is unchanged whatever the current state and flags, and no
suspend or resume is issued. -/
theorem hysteresis_band_sticky (hotT coolT : ℚ) (s : GovState) (inp : IterInput)
    (hlo : coolT ≤ inp.t) (hhi : inp.t ≤ hotT) :
    (step hotT coolT s inp).1.hot = s.hot ∧
    Event.sigSuspend ∉ (step hotT coolT s inp).2 ∧
    Event.sigResume ∉ (step hotT coolT s inp).2 := by
  have h1 : ¬ inp.t < coolT := not_lt.mpr hlo
  have h2 : ¬ inp.t > hotT := not_lt.mpr hhi
  by_cases hh : s.hot
  · by_cases hhk : (deliver inp.interrupt s).hotKilled <;>
      simp [step, hotBranch, hh, hhk, h1]
  · simp only [Bool.not_eq_true] at hh
    rcases hr : inp.reap with _ | st | _ <;>
      by_cases hk : (deliver inp.interrupt s).killed <;>
        simp [step, coolBranch, hh, hr, hk, h2]

/-- Witness for claim C6 at temperature 70 inside the band 60..75. -/
theorem hysteresis_band_sticky_witness :
    (step 75 60 initState ⟨false, 70, ReapResult.stillRunning⟩).1.hot = initState.hot ∧
    Event.sigSuspend ∉ (step 75 60 initState ⟨false, 70, ReapResult.stillRunning⟩).2 ∧
    Event.sigResume ∉ (step 75 60 initState ⟨false, 70, ReapResult.stillRunning⟩).2 :=
  hysteresis_band_sticky 75 60 initState ⟨false, 70, ReapResult.stillRunning⟩ (by decide) (by decide)

/-- Claim C7: validation accepts a configuration iff argc is at least 4,
hot is at most 90, cool is at least 30 and hot is at least cool, so the
rejected configurations are exactly those violating the three spec
invariants; argc below 4 yields the usage error; all startup errors exit
non-zero; hot=91/cool=50, hot=80/cool=20 and hot=50/cool=60 are rejected
while hot=70/cool=50 is accepted. -/
theorem config_validation (argc : Nat) (h c : ℚ) :
    (checkConfig argc h c = none ↔ (4 ≤ argc ∧ h ≤ 90 ∧ 30 ≤ c ∧ c ≤ h)) ∧
    (argc < 4 → checkConfig argc h c = some StartupError.usage) ∧
    startupExitStatus ≠ 0 ∧
    checkConfig 4 91 50 ≠ none ∧
    checkConfig 4 80 20 ≠ none ∧
    checkConfig 4 50 60 ≠ none ∧
    checkConfig 4 70 50 = none := by
  refine ⟨?_, ?_, by decide, by decide, by decide, by decide, by decide⟩
  · unfold checkConfig
    split_ifs with h1 h2 h3 h4
    · simp only [reduceCtorEq, false_iff]
      rintro ⟨ha, -⟩; omega
    · simp only [reduceCtorEq, false_iff]
      rintro ⟨-, hb, -⟩; linarith
    · simp only [reduceCtorEq, false_iff]
      rintro ⟨-, -, hc2, -⟩; linarith
    · simp only [reduceCtorEq, false_iff]
      rintro ⟨-, -, -, hd⟩; linarith
    · simp only [true_iff]
      exact ⟨by omega, by linarith, by linarith, by linarith⟩
  · intro ha
    unfold checkConfig
    rw [if_pos ha]

/-- Witness for claim C7 at argc 3: the usage rejection. -/
theorem config_validation_witness : checkConfig 3 70 50 = some StartupError.usage :=
  (config_validation 3 70 50).2.1 (by decide)

lemma detect_temp_eq_foldl_max (rs : List ℚ) : detect_temp rs = rs.foldl max (-1) := by
  unfold detect_temp
  congr 1
  funext m v
  rcases lt_or_le m v with h | h
  · rw [if_pos h]
    exact (max_eq_right h.le).symm
  · rw [if_neg (not_lt.mpr h)]
    exact (max_eq_left h).symm

lemma le_foldl_max (rs : List ℚ) (a : ℚ) : a ≤ rs.foldl max a := by
  induction rs generalizing a with
  | nil => exact le_refl a
  | cons x xs ih => exact le_trans (le_max_left a x) (ih (max a x))

lemma mem_le_foldl_max (rs : List ℚ) : ∀ (a v : ℚ), v ∈ rs → v ≤ rs.foldl max a := by
  induction rs with
  | nil => intro a v hv; cases hv
  | cons x xs ih =>
    intro a v hv
    rcases List.mem_cons.mp hv with rfl | hv2
    · exact le_trans (le_max_right a v) (le_foldl_max xs (max a v))
    · exact ih (max a x) v hv2

lemma foldl_max_mem (rs : List ℚ) : ∀ (a : ℚ), rs.foldl max a = a ∨ rs.foldl max a ∈ rs := by
  induction rs with
  | nil => intro a; exact Or.inl rfl
  | cons x xs ih =>
    intro a
    rw [List.foldl_cons]
    rcases ih (max a x) with h | h
    · rcases max_choice a x with h2 | h2
      · exact Or.inl (h.trans h2)
      · right
        rw [h, h2]
        exact List.mem_cons_self x xs
    · exact Or.inr (List.mem_cons_of_mem x h)

/-- Claim C8 (amended): `detect_temp` returns an upper bound of all
successful readings which is either one of the readings or the initial
accumulator value -1; it equals the maximum observed value whenever at
least one reading is at least -1. -/
theorem detect_temp_clamped_max (rs : List ℚ) :
    (∀ v ∈ rs, v ≤ detect_temp rs) ∧
    (detect_temp rs = -1 ∨ detect_temp rs ∈ rs) ∧
    ((∃ v ∈ rs, -1 ≤ v) → detect_temp rs ∈ rs) := by
  have hub : ∀ v ∈ rs, v ≤ detect_temp rs := by
    intro v hv
    rw [detect_temp_eq_foldl_max]
    exact mem_le_foldl_max rs (-1) v hv
  have hmem : detect_temp rs = -1 ∨ detect_temp rs ∈ rs := by
    rw [detect_temp_eq_foldl_max]
    exact foldl_max_mem rs (-1)
  refine ⟨hub, hmem, ?_⟩
  rintro ⟨v, hv, hvle⟩
  rcases hmem with h | h
  · have hv1 : v ≤ (-1 : ℚ) := h ▸ hub v hv
    have hveq : v = -1 := le_antisymm hv1 hvle
    rw [h, ← hveq]
    exact hv
  · exact h

/-- Witness for the amended claim C8 on a vector of ordinary readings. -/
theorem detect_temp_clamped_max_witness :
    detect_temp [40, 50] ∈ [(40 : ℚ), 50] :=
  (detect_temp_clamped_max [40, 50]).2.2 ⟨50, by decide, by decide⟩

/-- Claim C8 counterexample: on six successful readings of -2 the maximum
observed value is -2 but `detect_temp` returns -1, so it does not return
the maximum observed value on every vector of successful readings. -/
theorem detect_temp_not_max :
    detect_temp [-2, -2, -2, -2, -2, -2] = -1 ∧
    List.maximum [(-2 : ℚ), -2, -2, -2, -2, -2] = some (-2) ∧
    ((-1 : ℚ) : WithBot ℚ) ≠ some (-2) := by
  decide

/-- Claim C9: an interrupt delivered to a cool iteration issues the kill
and clears only `killed`, leaving `hotKilled` set; a later transition to
hot before the child is reaped therefore makes the first hot iteration
emit the 173 deferred-kill notice although no new interrupt was
delivered. -/
theorem kill_leaves_hotKilled_set (hotT coolT : ℚ) (s s1 s2 : GovState)
    (i1 i2 i3 : IterInput)
    (hcool : s.hot = false)
    (h1i : i1.interrupt = true) (h1r : i1.reap = ReapResult.stillRunning)
    (h1t : ¬ i1.t > hotT)
    (hs1 : s1 = (step hotT coolT s i1).1)
    (h2i : i2.interrupt = false) (h2r : i2.reap = ReapResult.stillRunning)
    (h2t : i2.t > hotT)
    (hs2 : s2 = (step hotT coolT s1 i2).1)
    (h3i : i3.interrupt = false) :
    Event.sigKill ∈ (step hotT coolT s i1).2 ∧
    s1.killed = false ∧ s1.hotKilled = true ∧ s1.hot = false ∧
    Event.sigKill ∉ (step hotT coolT s1 i2).2 ∧
    s2.hot = true ∧ s2.hotKilled = true ∧
    Event.notice173 ∈ (step hotT coolT s2 i3).2 := by
  have hd1 : deliver i1.interrupt s = { s with killed := true, hotKilled := true } := by
    rw [h1i]; rfl
  have hstep1 : step hotT coolT s i1
      = ({ s with killed := false, hotKilled := true },
         [Event.notice174, Event.sigKill, Event.reapCall]) := by
    simp [step, hd1, hcool, coolBranch, h1r, h1t]
  have hs1v : s1 = { s with killed := false, hotKilled := true } := by
    rw [hs1, hstep1]
  have hstep2 : step hotT coolT s1 i2
      = ({ s with killed := false, hotKilled := true, hot := true },
         [Event.reapCall, Event.notice171, Event.sigSuspend]) := by
    simp [step, deliver, h2i, hs1v, hcool, coolBranch, h2r, h2t]
  have hs2v : s2 = { s with killed := false, hotKilled := true, hot := true } := by
    rw [hs2, hstep2]
  have h3 : Event.notice173 ∈ (step hotT coolT s2 i3).2 := by
    by_cases hc : i3.t < coolT <;>
      simp [step, deliver, h3i, hs2v, hotBranch, hc]
  exact ⟨by simp [hstep1], by simp [hs1v], by simp [hs1v], by simp [hs1v, hcool],
    by simp [hstep2], by simp [hs2v], by simp [hs2v], h3⟩

/-- Witness for claim C9: interrupt at a cool sample of 50, then samples
of 80 against thresholds 75/60. -/
theorem kill_leaves_hotKilled_set_witness :
    Event.sigKill ∈ (step 75 60 initState ⟨true, 50, ReapResult.stillRunning⟩).2 ∧
    (⟨false, false, true, 0, false⟩ : GovState).killed = false ∧
    (⟨false, false, true, 0, false⟩ : GovState).hotKilled = true ∧
    (⟨false, false, true, 0, false⟩ : GovState).hot = false ∧
    Event.sigKill ∉ (step 75 60 ⟨false, false, true, 0, false⟩ ⟨false, 80, ReapResult.stillRunning⟩).2 ∧
    (⟨true, false, true, 0, false⟩ : GovState).hot = true ∧
    (⟨true, false, true, 0, false⟩ : GovState).hotKilled = true ∧
    Event.notice173 ∈ (step 75 60 ⟨true, false, true, 0, false⟩ ⟨false, 80, ReapResult.stillRunning⟩).2 :=
  kill_leaves_hotKilled_set 75 60 initState
    ⟨false, false, true, 0, false⟩ ⟨true, false, true, 0, false⟩
    ⟨true, 50, ReapResult.stillRunning⟩ ⟨false, 80, ReapResult.stillRunning⟩ ⟨false, 80, ReapResult.stillRunning⟩
    rfl rfl rfl (by decide) (by decide) rfl rfl (by decide) (by decide) rfl

lemma step_hot_stays (hotT coolT : ℚ) (s : GovState) (inp : IterInput)
    (hhot : s.hot = true) :
    (step hotT coolT s inp).1.exited = s.exited ∧
    (¬ inp.t < coolT → (step hotT coolT s inp).1.hot = true) := by
  by_cases hhk : (deliver inp.interrupt s).hotKilled <;>
    by_cases hc : inp.t < coolT <;>
      simp [step, hotBranch, hhot, hhk, hc]

lemma run_stays_hot (hotT coolT : ℚ) (inputs : List IterInput) :
    ∀ (s : GovState), s.hot = true → (∀ i ∈ inputs, ¬ i.t < coolT) →
      (run hotT coolT s inputs).1.hot = true ∧
      (run hotT coolT s inputs).1.exited = s.exited := by
  induction inputs with
  | nil => intro s hh _; exact ⟨hh, rfl⟩
  | cons i rest ih =>
    intro s hh hall
    have hi := hall i (List.mem_cons_self i rest)
    have hstep := step_hot_stays hotT coolT s i hh
    by_cases hex : s.exited
    · simp [run, hex, hh]
    · simp only [Bool.not_eq_true] at hex
      have hrest := ih (step hotT coolT s i).1 (hstep.2 hi)
        (fun j hj => hall j (List.mem_cons_of_mem i hj))
      have hrun : run hotT coolT s (i :: rest)
          = ((run hotT coolT (step hotT coolT s i).1 rest).1,
             (step hotT coolT s i).2 ++ (run hotT coolT (step hotT coolT s i).1 rest).2) := by
        simp [run, hex]
      rw [hrun]
      exact ⟨hrest.1, hrest.2.trans hstep.1⟩

/-- Claim C10: an iteration that starts hot never performs the
non-blocking reap and never leaves the loop, and it stays hot unless the
sampled temperature drops below the cool threshold; consequently a run of
iterations from a hot state whose samples never drop below the cool
threshold cannot terminate the loop, even if the child exits while
suspended. -/
theorem hot_iteration_skips_reap (hotT coolT : ℚ) (s : GovState) (inp : IterInput)
    (hhot : s.hot = true) :
    Event.reapCall ∉ (step hotT coolT s inp).2 ∧
    (step hotT coolT s inp).1.exited = s.exited ∧
    (¬ inp.t < coolT → (step hotT coolT s inp).1.hot = true) ∧
    (∀ (inputs : List IterInput), (∀ i ∈ inputs, ¬ i.t < coolT) →
      s.exited = false → (run hotT coolT s inputs).1.exited = false) := by
  have hnoreap : Event.reapCall ∉ (step hotT coolT s inp).2 := by
    by_cases hhk : (deliver inp.interrupt s).hotKilled <;>
      by_cases hc : inp.t < coolT <;>
        simp [step, hotBranch, hhot, hhk, hc]
  have hstep := step_hot_stays hotT coolT s inp hhot
  refine ⟨hnoreap, hstep.1, hstep.2, ?_⟩
  intro inputs hall hex
  rw [(run_stays_hot hotT coolT inputs s hhot hall).2, hex]

/-- Witness for claim C10: a hot iteration at sample 80 while the reap
input reports an exited child with status 7 is ignored. -/
theorem hot_iteration_skips_reap_witness :
    Event.reapCall ∉ (step 75 60 ⟨true, false, false, 0, false⟩ ⟨false, 80, ReapResult.reaped 7⟩).2 ∧
    (step 75 60 ⟨true, false, false, 0, false⟩ ⟨false, 80, ReapResult.reaped 7⟩).1.exited
      = (⟨true, false, false, 0, false⟩ : GovState).exited ∧
    (step 75 60 ⟨true, false, false, 0, false⟩ ⟨false, 80, ReapResult.reaped 7⟩).1.hot = true ∧
    (run 75 60 ⟨true, false, false, 0, false⟩ [⟨false, 80, ReapResult.reaped 7⟩]).1.exited = false := by
  have h := hot_iteration_skips_reap 75 60 ⟨true, false, false, 0, false⟩
    ⟨false, 80, ReapResult.reaped 7⟩ rfl
  exact ⟨h.1, h.2.1, h.2.2.1 (by decide),
    h.2.2.2 [⟨false, 80, ReapResult.reaped 7⟩] (by decide) rfl⟩

end Krun
